import Mathlib

/-!
Shallow embedding of the `ai-interview-buddy` backend (the connection /
session pipeline in `src/backend/websocket.py`, the intent classifier in
`src/backend/services/intent.py`, the suggestion generators in
`src/backend/services/llm.py` and `src/backend/services/ai_service.py`,
the conversation-history buffer of `AIService`, and the audio-buffer loop
of the `/ws/audio` endpoint in `src/backend/main.py`).

External effects (network transcription, LLM calls, websocket delivery)
are modelled as explicit outcome parameters; Python exceptions become
`Except` values; Python dicts keyed by session id become association
lists.
-/

namespace InterviewBuddy

/-! ## Intent detection (`src/backend/services/intent.py`) -/

/-- Python `str.lower()` (character-wise lowercasing). -/
def lowerStr (s : String) : String := String.mk (s.data.map Char.toLower)

/-- Split a regex pattern (as a character list) at each occurrence of the
two-character wildcard `.*`, yielding the literal segments between the
gaps.  Every pattern in `question_patterns` consists only of literal
characters and `.*`, so this captures the whole pattern language the
intent table uses. -/
def segsOf : List Char → List (List Char)
  | [] => [[]]
  | '.' :: '*' :: rest => [] :: segsOf rest
  | c :: rest =>
    match segsOf rest with
    | s :: ss => (c :: s) :: ss
    | [] => [[c]]

/-- All remainders `s'` such that `s = g ++ seg ++ s'` for some gap `g`
containing no newline: the positions where the literal `seg` can be
matched after a `.*` gap (under Python `re.search`, `.` matches any
character except a newline). -/
def gapStarts (seg : List Char) : List Char → List (List Char)
  | [] => if List.isPrefixOf seg [] then [([] : List Char).drop seg.length] else []
  | c :: s =>
    (if List.isPrefixOf seg (c :: s) then [(c :: s).drop seg.length] else []) ++
      (if c = '\n' then [] else gapStarts seg s)

/-- Matcher semantics: `afterMatch segs s` holds when the literal segments of `segs` occur in
order inside `s`, starting at the current position, with each segment
preceded by a gap of characters that contains no newline (the semantics
of `.*` between literals under Python `re.search`). -/
def afterMatch : List (List Char) → List Char → Bool
  | [], _ => true
  | seg :: rest, s => (gapStarts seg s).any (afterMatch rest)

/-- The pattern matches starting exactly at the head of `s`. -/
def atStart : List (List Char) → List Char → Bool
  | [], _ => true
  | seg :: rest, s =>
    List.isPrefixOf seg s && afterMatch rest (s.drop seg.length)

/-- Python `re.search`: the pattern may match starting at any position. -/
def reSearch (segs : List (List Char)) : List Char → Bool
  | [] => atStart segs []
  | c :: s => atStart segs (c :: s) || reSearch segs s

/-- Python `re.search(pat, s) is not None`, for the literal-and-wildcard patterns
of the intent table. -/
def reSearchStr (pat s : String) : Bool := reSearch (segsOf pat.data) s.data

/-- The ordered rule table `IntentDetector.question_patterns`, verbatim
from the source (Python dicts preserve insertion order). -/
def question_patterns : List (String × List String) :=
  [ ("behavioral",
      [ "tell me about a time", "describe a situation", "give me an example",
        "walk me through", "how did you handle", "what would you do if" ]),
    ("technical",
      [ "how does .* work", "explain .* algorithm", "what is .*",
        "how would you implement", "design a system", "code", "programming" ]),
    ("experience",
      [ "tell me about yourself", "your background", "your experience",
        "worked on", "previous role", "career" ]),
    ("motivation",
      [ "why do you want", "why are you interested", "why should we hire",
        "what motivates you", "why this company" ]),
    ("strengths_weaknesses",
      [ "greatest strength", "biggest weakness", "what are you good at",
        "areas for improvement" ]),
    ("future",
      [ "where do you see yourself", "career goals", "five years",
        "future plans" ]),
    ("situational",
      [ "what would you do", "how would you approach", "if you were",
        "imagine you" ]) ]

/-- The inner `for pattern in patterns` loop of `detect_intent`: returns
the label as soon as some pattern of this label matches. -/
def scanPatterns (intent : String) : List String → String → Option String
  | [], _ => none
  | p :: ps, tl =>
    if reSearchStr p tl then some intent else scanPatterns intent ps tl

/-- The outer `for intent, patterns in self.question_patterns.items()`
loop: first matching label in table order wins. -/
def scanTable : List (String × List String) → String → Option String
  | [], _ => none
  | (intent, pats) :: rest, tl =>
    match scanPatterns intent pats tl with
    | some i => some i
    | none => scanTable rest tl

/-- Python substring test `needle in hay`. -/
def containsSub (needle hay : List Char) : Bool :=
  List.isPrefixOf needle hay ||
    (match hay with
     | [] => false
     | _ :: t => containsSub needle t)

/-- The interrogative markers of the fallback branch of `detect_intent`. -/
def interrogatives : List String := ["what", "how", "why", "when", "where", "who"]

/-- Python `any(word in text_lower for word in [...])`. -/
def hasInterrogative (tl : String) : Bool :=
  interrogatives.any (fun w => containsSub w.data tl.data)

/-- Embedding of `IntentDetector.detect_intent`.  The argument is `Option String` so
that Python `None` is representable; Python's falsy test `if not text`
covers both `None` and the empty string. -/
def detect_intent : Option String → String
  | none => "unknown"
  | some text =>
    if text = "" then "unknown"
    else
      let tl := lowerStr text
      match scanTable question_patterns tl with
      | some intent => intent
      | none =>
        if hasInterrogative tl then "general_question" else "unknown"

/-! ## Connection manager (`src/backend/websocket.py`) and the
`AIService` conversation history (`src/backend/services/ai_service.py`) -/

/-- A structured coaching suggestion: the dict
`{"bullets": [...], "follow_up": "..."}` produced by the generation
services. -/
structure CoachingDict where
  bullets : List String
  follow_up : String
deriving DecidableEq

/-- Embedding of `models.InterviewSession` (the fields `websocket.py` touches;
`started_at` is an abstract timestamp, the unused per-session
`transcriptions`/`ai_responses` accumulators are elided — nothing in
`websocket.py` reads or writes them). -/
structure InterviewSession where
  session_id : String
  started_at : Nat
  is_active : Bool
deriving DecidableEq

/-- The mutable state of one `AIService` instance. -/
structure AIServiceState where
  conversation_history : List String
deriving DecidableEq

/-- Embedding of `AIService.add_to_conversation_history`: append, then keep only the
last 20 entries when the length exceeds 20 (Python `history[-20:]`). -/
def add_to_conversation_history (st : AIServiceState) (text : String) : AIServiceState :=
  let h := st.conversation_history ++ [text]
  if h.length > 20 then { conversation_history := h.drop (h.length - 20) }
  else { conversation_history := h }

/-- Embedding of `AIService.clear_conversation_history`. -/
def clear_conversation_history (_ : AIServiceState) : AIServiceState :=
  { conversation_history := [] }

/-- Embedding of `AIService.get_conversation_history` (returns a copy; in the pure
model the list itself). -/
def get_conversation_history (st : AIServiceState) : List String :=
  st.conversation_history

/-- Outbound websocket messages, tagged as in the wire protocol.  Payload
fields that the claims never inspect (timestamps) are elided. -/
inductive Msg where
  | status (status : String) (message : String)
  | transcriptionText (text : String)
  | ai_response (suggestion : CoachingDict) (original_text : String)
  | error (message : String)
  | pong
deriving DecidableEq

/-- The whole mutable state of the module-level `ConnectionManager`:
its two session-keyed dicts (as association lists with unique keys) and
the single shared `AIService`.  Note there is exactly one
`transcription_service` and one `ai_service` for all sessions — they are
created once in `ConnectionManager.__init__`.  Websocket channel objects
are abstracted to numeric channel ids. -/
structure ManagerState where
  active_connections : List (String × Nat)
  sessions : List (String × InterviewSession)
  ai_service : AIServiceState
deriving DecidableEq

/-- Python `d.get(k)` / `k in d` on a dict modelled as an association
list with unique keys. -/
def dLookup {α : Type} : List (String × α) → String → Option α
  | [], _ => none
  | (k, v) :: d, q => if k = q then some v else dLookup d q

/-- Python `del d[k]`. -/
def dErase {α : Type} : List (String × α) → String → List (String × α)
  | [], _ => []
  | (k, v) :: d, q => if k = q then dErase d q else (k, v) :: dErase d q

/-- Embedding of `self.sessions[session_id].is_active = False`: the keyed in-place
update of one session's flag. -/
def dSetInactive : List (String × InterviewSession) → String →
    List (String × InterviewSession)
  | [], _ => []
  | (k, v) :: d, q =>
    if k = q then (k, { v with is_active := false }) :: dSetInactive d q
    else (k, v) :: dSetInactive d q

/-- Embedding of `ConnectionManager.disconnect`: drop the channel if present, and flip
the session's `is_active` flag to `False` if the session exists (both
membership-guarded, as in the source).  Pure dictionary updates; nothing
here can raise. -/
def disconnect (st : ManagerState) (session_id : String) : ManagerState :=
  let active :=
    if (dLookup st.active_connections session_id).isSome then
      dErase st.active_connections session_id
    else st.active_connections
  let sessions :=
    if (dLookup st.sessions session_id).isSome then
      dSetInactive st.sessions session_id
    else st.sessions
  { st with active_connections := active, sessions := sessions }

/-- Embedding of `ConnectionManager.send_message`.  `ok` is the environment's verdict on
the delivery attempt (`websocket.send_text` raising or not).  Returns the
new state together with the list of actually delivered `(session, message)`
pairs.  An unknown session id is a silent no-op; a delivery failure is
absorbed and turned into `disconnect`. -/
def send_message (st : ManagerState) (ok : Bool) (session_id : String) (message : Msg) :
    ManagerState × List (String × Msg) :=
  if (dLookup st.active_connections session_id).isSome then
    if ok then (st, [(session_id, message)])
    else (disconnect st session_id, [])
  else (st, [])

/-- Result of one run of the audio-handling cycle: the manager state
afterwards, the messages actually delivered, the messages handed to
`send_message` (delivery attempts, in order), and the conversation
history passed to the generation step (recorded to make the shared
history observable). -/
structure AudioCycleResult where
  state : ManagerState
  delivered : List (String × Msg)
  attempts : List Msg
  historyUsed : Option (List String)
deriving DecidableEq

/-- Embedding of `ConnectionManager.handle_audio_data`.

Environment parameters: `tr` is the outcome of
`transcription_service.transcribe_audio` (`Except.error` = the call
raised, `Except.ok none` = falsy result i.e. no speech, `Except.ok (some
t)` = transcribed text); `gen` is the outcome of the generation call
(`self.ai_service.generate_response_suggestion(...)` — note this method
does not exist on `AIService`, so at runtime this call always raises
`AttributeError`; the embedding keeps the outcome as a parameter, which
covers that behaviour as an `Except.error`); `oks k` is the delivery
verdict for the `k`-th `send_message` attempt of this cycle.

The whole body sits in one `try`, whose `except` sends a generic error
message; `send_message` itself never raises, so the only exception
sources are `tr` and `gen`. -/
def handle_audio_data (st : ManagerState) (session_id : String)
    (tr : Except String (Option String)) (gen : Except String (Option CoachingDict))
    (oks : Nat → Bool) : AudioCycleResult :=
  let m0 := Msg.status "transcribing" "Processing audio..."
  let r1 := send_message st (oks 0) session_id m0
  match tr with
  | Except.error e =>
    let me := Msg.error ("Audio processing failed: " ++ e)
    let r2 := send_message r1.1 (oks 1) session_id me
    { state := r2.1, delivered := r1.2 ++ r2.2, attempts := [m0, me], historyUsed := none }
  | Except.ok none =>
    let mn := Msg.status "no_speech" "No speech detected in audio"
    let r2 := send_message r1.1 (oks 1) session_id mn
    { state := r2.1, delivered := r1.2 ++ r2.2, attempts := [m0, mn], historyUsed := none }
  | Except.ok (some t) =>
    let mt := Msg.transcriptionText t
    let r2 := send_message r1.1 (oks 1) session_id mt
    let st3 := { r2.1 with ai_service := add_to_conversation_history r2.1.ai_service t }
    let hist := get_conversation_history st3.ai_service
    let mg := Msg.status "generating" "Generating response suggestion..."
    let r3 := send_message st3 (oks 2) session_id mg
    match gen with
    | Except.error e =>
      let me := Msg.error ("Audio processing failed: " ++ e)
      let r4 := send_message r3.1 (oks 3) session_id me
      { state := r4.1, delivered := r1.2 ++ r2.2 ++ r3.2 ++ r4.2,
        attempts := [m0, mt, mg, me], historyUsed := some hist }
    | Except.ok none =>
      let mf := Msg.error "Failed to generate AI response"
      let r4 := send_message r3.1 (oks 3) session_id mf
      { state := r4.1, delivered := r1.2 ++ r2.2 ++ r3.2 ++ r4.2,
        attempts := [m0, mt, mg, mf], historyUsed := some hist }
    | Except.ok (some sug) =>
      let mr := Msg.ai_response sug t
      let r4 := send_message r3.1 (oks 3) session_id mr
      { state := r4.1, delivered := r1.2 ++ r2.2 ++ r3.2 ++ r4.2,
        attempts := [m0, mt, mg, mr], historyUsed := some hist }

/-- One parsed inbound JSON message: its `"type"` field (`none` when the
key is missing, in Python `message.get("type")` is `None`) and, for
audio messages, the outcome of `base64.b64decode(message["data"]["audio"])`
(`Except.error` = any exception while extracting/decoding). -/
structure Inbound where
  msgType : Option String
  audioDecode : Except String (List Nat)

/-- Python's `f"{x}"` rendering of an optional string: `None` prints as
`"None"`. -/
def pyStr : Option String → String
  | none => "None"
  | some s => s

/-- Embedding of `ConnectionManager.handle_message`: dispatch on the `"type"` tag. -/
def handle_message (st : ManagerState) (session_id : String) (m : Inbound)
    (tr : Except String (Option String)) (gen : Except String (Option CoachingDict))
    (oks : Nat → Bool) : AudioCycleResult :=
  if m.msgType = some "audio" then
    match m.audioDecode with
    | Except.ok _ => handle_audio_data st session_id tr gen oks
    | Except.error e =>
      let me := Msg.error ("Invalid audio data: " ++ e)
      let r := send_message st (oks 0) session_id me
      { state := r.1, delivered := r.2, attempts := [me], historyUsed := none }
  else if m.msgType = some "ping" then
    let r := send_message st (oks 0) session_id Msg.pong
    { state := r.1, delivered := r.2, attempts := [Msg.pong], historyUsed := none }
  else if m.msgType = some "clear_history" then
    let st1 := { st with ai_service := clear_conversation_history st.ai_service }
    let mc := Msg.status "history_cleared" "Conversation history cleared"
    let r := send_message st1 (oks 0) session_id mc
    { state := r.1, delivered := r.2, attempts := [mc], historyUsed := none }
  else
    let me := Msg.error ("Unknown message type: " ++ pyStr m.msgType)
    let r := send_message st (oks 0) session_id me
    { state := r.1, delivered := r.2, attempts := [me], historyUsed := none }

/-! ## Suggestion generation (`src/backend/services/llm.py` and
`src/backend/services/ai_service.py`) -/

/-- The context bundle produced by `retriever.retrieve_context` (always a
dict with these four list-valued keys). -/
structure ContextBundle where
  relevant_experience : List String
  matching_skills : List String
  suggested_points : List String
  company_connection : List String
deriving DecidableEq

/-- Python `'\n'.split` semantics: `content.split('\n')`. -/
def splitLines : List Char → List (List Char)
  | [] => [[]]
  | '\n' :: rest => [] :: splitLines rest
  | c :: rest =>
    match splitLines rest with
    | l :: ls => (c :: l) :: ls
    | [] => [[c]]

/-- Python `str.strip()` (drop leading and trailing whitespace). -/
def stripChars (l : List Char) : List Char :=
  ((l.dropWhile Char.isWhitespace).reverse.dropWhile Char.isWhitespace).reverse

/-- Python `'follow' in line.lower() and 'up' in line.lower()`. -/
def mentionsFollowUp (line : List Char) : Bool :=
  containsSub "follow".data (line.map Char.toLower) &&
    containsSub "up".data (line.map Char.toLower)

/-- The line loop of `LLMService._parse_text_response`.  State: collected
bullets, the follow-up line (empty list = Python `""`), and whether
`current_section == 'follow_up'`.  A stripped line that starts with a
digit and has no second character raises `IndexError` in Python
(`line[1]`), modelled as `Except.error`. -/
def parseLines (bullets : List (List Char)) (fu : List Char) (inFollow : Bool) :
    List (List Char) → Except String (List (List Char) × List Char)
  | [] => Except.ok (bullets, fu)
  | raw :: rest =>
    match stripChars raw with
    | [] => parseLines bullets fu inFollow rest
    | c :: cs =>
      if c = '•' || c = '-' || c = '*' then
        parseLines (bullets ++ [stripChars cs]) fu inFollow rest
      else if c.isDigit then
        match cs with
        | [] => Except.error "IndexError: string index out of range"
        | c1 :: cs1 =>
          if c1 = '.' || c1 = ')' || c1 = ':' then
            parseLines (bullets ++ [stripChars cs1]) fu inFollow rest
          else if mentionsFollowUp (c :: cs) then
            parseLines bullets fu true rest
          else if inFollow then
            (if fu = [] then parseLines bullets (c :: cs) inFollow rest
             else parseLines bullets fu inFollow rest)
          else parseLines bullets fu inFollow rest
      else if mentionsFollowUp (c :: cs) then
        parseLines bullets fu true rest
      else if inFollow then
        (if fu = [] then parseLines bullets (c :: cs) inFollow rest
         else parseLines bullets fu inFollow rest)
      else parseLines bullets fu inFollow rest

/-- Embedding of `LLMService._parse_text_response`: the non-JSON fallback parser;
fills in default bullets / follow-up when the scan found none and keeps
at most three bullets. -/
def parse_text_response (content : String) : Except String CoachingDict :=
  match parseLines [] [] false (splitLines content.data) with
  | Except.error e => Except.error e
  | Except.ok (bullets, fu) =>
    let bullets :=
      if bullets = [] then
        [ "Focus on specific examples from your experience".data,
          "Connect your answer to the job requirements".data ]
      else bullets
    let fu :=
      if fu = [] then "What questions do you have about the role or the team?".data
      else fu
    Except.ok { bullets := (bullets.take 3).map String.mk, follow_up := String.mk fu }

/-- The observable outcomes of the HTTP exchange inside
`LLMService._generate_with_ollama`: a raised exception, a non-200
status, a body that parses as JSON containing both `"bullets"` and
`"follow_up"` keys, or any other body text. -/
inductive OllamaResp where
  | exn (e : String)
  | badStatus (code : Nat)
  | jsonBoth (d : CoachingDict)
  | textBody (content : String)
deriving DecidableEq

/-- Embedding of `LLMService._generate_with_ollama`: exceptions (including the
parser's `IndexError`) are caught internally and become `None`; a non-200
status becomes `None`; JSON with both keys is returned as-is; any other
body goes through `_parse_text_response`. -/
def generate_with_ollama : OllamaResp → Option CoachingDict
  | OllamaResp.exn _ => none
  | OllamaResp.badStatus _ => none
  | OllamaResp.jsonBoth d => some d
  | OllamaResp.textBody c =>
    match parse_text_response c with
    | Except.ok d => some d
    | Except.error _ => none

/-- The canned responses of `LLMService._mock_suggestions`, keyed by
intent (table order as in the source). -/
def mock_responses : List (String × CoachingDict) :=
  [ ("experience",
      { bullets :=
          [ "Highlight your most relevant achievements with specific metrics",
            "Connect your background directly to the job requirements",
            "Show progression and growth in your career" ],
        follow_up := "What opportunities for professional development does this role offer?" }),
    ("behavioral",
      { bullets :=
          [ "Use the STAR method: Situation, Task, Action, Result",
            "Choose an example that shows leadership or problem-solving",
            "Quantify your impact with specific numbers or outcomes" ],
        follow_up := "How does the team handle challenging situations like this?" }),
    ("motivation",
      { bullets :=
          [ "Research the company's mission and values beforehand",
            "Explain how this role aligns with your career goals",
            "Show genuine enthusiasm and specific knowledge about the company" ],
        follow_up := "What excites the team most about working here?" }),
    ("strengths_weaknesses",
      { bullets :=
          [ "Choose strengths that are directly relevant to the job",
            "For weaknesses, show how you're actively improving",
            "Provide concrete examples to support your points" ],
        follow_up := "What qualities do your most successful team members have?" }),
    ("technical",
      { bullets :=
          [ "Break down complex concepts into clear, simple terms",
            "Use specific examples from your experience",
            "Show your thought process and problem-solving approach" ],
        follow_up := "What technical challenges is the team currently facing?" }) ]

/-- The default of `mock_responses.get(intent, {...})`. -/
def mock_default : CoachingDict :=
  { bullets :=
      [ "Take a moment to organize your thoughts before answering",
        "Provide specific examples whenever possible",
        "Keep your answer focused and concise" ],
    follow_up := "What questions do you have about the role or team?" }

/-- Embedding of `LLMService._mock_suggestions`: canned response keyed by intent, plus
a context-aware extra bullet when `matching_skills` is non-empty. -/
def mock_suggestions (_text intent : String) (context : ContextBundle) : CoachingDict :=
  let response :=
    match dLookup mock_responses intent with
    | some r => r
    | none => mock_default
  if context.matching_skills ≠ [] then
    { response with
      bullets := response.bullets ++
        [ "Mention your experience with " ++
            String.intercalate ", " (context.matching_skills.take 2) ] }
  else response

/-- Embedding of `LLMService.ensure_model_ready` as it affects `use_local_llm` for a
single `generate_suggestions` call: a setup failure (or a raised setup
exception) flips `use_local_llm` off. -/
def ensure_model_ready (use_local setup_ok : Bool) : Bool :=
  use_local && setup_ok

/-- Embedding of `LLMService.generate_suggestions`.  `use_local`/`setup_ok` model the
`use_local_llm` flag and the Ollama setup outcome; `resp` is the HTTP
exchange outcome.  `_generate_with_ollama` never returns an empty dict,
so Python's truthiness test `if result:` is `Option.isSome` here. -/
def generate_suggestions (use_local setup_ok : Bool) (resp : OllamaResp)
    (text intent : String) (context : ContextBundle) : CoachingDict :=
  let use_local := ensure_model_ready use_local setup_ok
  if use_local then
    match generate_with_ollama resp with
    | some result => result
    | none => mock_suggestions text intent context
  else mock_suggestions text intent context

/-- The observable outcomes of the OpenAI call and JSON parse inside
`AIService.generate_coaching_response`: a raised exception anywhere in
the `try` block, a parsed JSON object (with its two keys possibly
missing), or a `json.JSONDecodeError`. -/
inductive GenOutcome where
  | apiError (e : String)
  | parsed (bullets : Option (List String)) (follow_up : Option String)
  | parseFail
deriving DecidableEq

/-- Embedding of `AIService.generate_coaching_response` (lines 17–96): missing keys of
a parsed response are patched with defaults, a JSON decode failure yields
a hardcoded fallback dict, and any exception is caught and turned into
`None`. -/
def generate_coaching_response : GenOutcome → Option CoachingDict
  | GenOutcome.apiError _ => none
  | GenOutcome.parsed b f =>
    some { bullets := b.getD ["Consider the key points you want to highlight"],
           follow_up := f.getD "What would you like to know about this role?" }
  | GenOutcome.parseFail =>
    some { bullets :=
             [ "Take a moment to think about your response",
               "Focus on relevant experience",
               "Be specific with examples" ],
           follow_up := "What aspects of this role excite you most?" }

/-! ## The audio buffer loop of `/ws/audio` (`src/backend/main.py`,
`audio_socket`) -/

/-- Python `str.strip()` on a `String`. -/
def stripString (s : String) : String := String.mk (stripChars s.data)

/-- What one loop iteration sends back on the socket. -/
inductive AudioOut where
  | tips (d : CoachingDict) (transcript : String)
  | errJson (e : String)
deriving DecidableEq

/-- One iteration of the `while True` receive loop of `audio_socket`,
after `frame = await ws.receive_bytes()`.

Components of the result: the buffer contents after the iteration, the
segment handed to `transcribe_segment` (if any), and the payload passed
to `ws.send_json` (if any).  `tr` is the outcome of
`transcribe_segment(bytes(buffer))` — `Except.error` means the call
raised, in which case the inner `except` sends an error payload and,
crucially, `buffer.clear()` is never reached.  The retrieval step
(`retrieve_context`) never raises by its own contract and is the `ctx`
parameter; delivery failures of `ws.send_json` affect only messages,
never the buffer. -/
def audio_socket_step (buffer frame : List Nat) (tr : Except String String)
    (use_local setup_ok : Bool) (resp : OllamaResp) (ctx : ContextBundle) :
    List Nat × Option (List Nat) × Option AudioOut :=
  let buffer := buffer ++ frame
  if buffer.length > 32000 then
    match tr with
    | Except.error e => (buffer, some buffer, some (AudioOut.errJson e))
    | Except.ok text =>
      if text ≠ "" && stripString text ≠ "" then
        let intent := detect_intent (some text)
        let tips := generate_suggestions use_local setup_ok resp text intent ctx
        ([], some buffer, some (AudioOut.tips tips text))
      else ([], some buffer, none)
  else (buffer, none, none)

/-- The terminal outcomes of one audio-handling cycle, as the spec
classifies them: a `no_speech` status, an `ai_response`, or an `error`
message.  The intermediate `transcribing`/`generating` statuses and the
`transcription` echo are not terminal. -/
def terminalOutcome : Msg → Bool
  | Msg.status s _ => s == "no_speech"
  | Msg.transcriptionText _ => false
  | Msg.ai_response _ _ => true
  | Msg.error _ => true
  | Msg.pong => false

/-! ## Helper lemmas -/

lemma dLookup_dErase_self {α : Type} (d : List (String × α)) (k : String) :
    dLookup (dErase d k) k = none := by
  induction d with
  | nil => rfl
  | cons p d ih =>
    obtain ⟨k0, v⟩ := p
    by_cases h : k0 = k
    · subst h
      simpa [dErase] using ih
    · simpa [dErase, dLookup, h] using ih

lemma dLookup_dErase_ne {α : Type} (d : List (String × α)) (k q : String) (h : q ≠ k) :
    dLookup (dErase d k) q = dLookup d q := by
  induction d with
  | nil => rfl
  | cons p d ih =>
    obtain ⟨k0, v⟩ := p
    by_cases h0 : k0 = k
    · subst h0
      simpa [dErase, dLookup, Ne.symm h] using ih
    · by_cases hq : k0 = q
      · subst hq
        simp [dErase, dLookup, h0]
      · simpa [dErase, dLookup, h0, hq] using ih

lemma dLookup_dSetInactive_self (d : List (String × InterviewSession)) (k : String)
    (s : InterviewSession) (h : dLookup d k = some s) :
    dLookup (dSetInactive d k) k = some { s with is_active := false } := by
  induction d with
  | nil => simp [dLookup] at h
  | cons p d ih =>
    obtain ⟨k0, v⟩ := p
    by_cases h0 : k0 = k
    · subst h0
      simp [dLookup] at h
      subst h
      simp [dSetInactive, dLookup]
    · simp [dLookup, h0] at h
      simpa [dSetInactive, dLookup, h0] using ih h

lemma dLookup_dSetInactive_none (d : List (String × InterviewSession)) (k : String)
    (h : dLookup d k = none) : dLookup (dSetInactive d k) k = none := by
  induction d with
  | nil => rfl
  | cons p d ih =>
    obtain ⟨k0, v⟩ := p
    by_cases h0 : k0 = k
    · subst h0
      simp [dLookup] at h
    · simp [dLookup, h0] at h
      simpa [dSetInactive, dLookup, h0] using ih h

lemma dLookup_dSetInactive_ne (d : List (String × InterviewSession)) (k q : String)
    (h : q ≠ k) : dLookup (dSetInactive d k) q = dLookup d q := by
  induction d with
  | nil => rfl
  | cons p d ih =>
    obtain ⟨k0, v⟩ := p
    by_cases h0 : k0 = k
    · subst h0
      simpa [dSetInactive, dLookup, Ne.symm h] using ih
    · by_cases hq : k0 = q
      · subst hq
        simp [dSetInactive, dLookup, h0]
      · simpa [dSetInactive, dLookup, h0, hq] using ih

lemma dSetInactive_idem (d : List (String × InterviewSession)) (k : String) :
    dSetInactive (dSetInactive d k) k = dSetInactive d k := by
  induction d with
  | nil => rfl
  | cons p d ih =>
    obtain ⟨k0, v⟩ := p
    by_cases h : k0 = k
    · subst h
      simp [dSetInactive, ih]
    · simp [dSetInactive, h, ih]

lemma disconnect_lookup_active (st : ManagerState) (sid : String) :
    dLookup (disconnect st sid).active_connections sid = none := by
  unfold disconnect
  cases heq : dLookup st.active_connections sid with
  | none => simp [heq]
  | some c => simp [heq, dLookup_dErase_self]

lemma disconnect_idem (st : ManagerState) (sid : String) :
    disconnect (disconnect st sid) sid = disconnect st sid := by
  cases st with
  | mk A S ai =>
    cases heqA : dLookup A sid with
    | none =>
      cases heqS : dLookup S sid with
      | none => simp [disconnect, heqA, heqS]
      | some s =>
        simp [disconnect, heqA, heqS, dLookup_dSetInactive_self S sid s heqS,
          dSetInactive_idem]
    | some c =>
      cases heqS : dLookup S sid with
      | none => simp [disconnect, heqA, heqS, dLookup_dErase_self]
      | some s =>
        simp [disconnect, heqA, heqS, dLookup_dErase_self,
          dLookup_dSetInactive_self S sid s heqS, dSetInactive_idem]

/-! ## Conversation-history lemmas -/

lemma rtake_eq_drop {α : Type} (l : List α) (n : Nat) :
    List.rtake l n = l.drop (l.length - n) := rfl

lemma add_hist_eq (st : AIServiceState) (t : String) :
    add_to_conversation_history st t =
      { conversation_history := (st.conversation_history ++ [t]).rtake 20 } := by
  unfold add_to_conversation_history
  rw [rtake_eq_drop]
  by_cases h : (st.conversation_history ++ [t]).length > 20
  · rw [if_pos h]
  · rw [if_neg h, Nat.sub_eq_zero_of_le (by omega), List.drop_zero]

lemma rtake_absorb {α : Type} (l ts : List α) (n : Nat) :
    (List.rtake l n ++ ts).rtake n = (l ++ ts).rtake n := by
  simp only [List.rtake_eq_reverse_take_reverse, List.reverse_append, List.reverse_reverse,
    List.take_append_eq_append_take, List.take_take, List.length_reverse]
  rw [Nat.min_eq_left (Nat.sub_le _ _)]

lemma foldl_hist (ts : List String) : ∀ l : List String, l.length ≤ 20 →
    (ts.foldl add_to_conversation_history { conversation_history := l }).conversation_history
      = (l ++ ts).rtake 20 := by
  induction ts with
  | nil =>
    intro l h
    simp [List.rtake, Nat.sub_eq_zero_of_le h]
  | cons t ts ih =>
    intro l h
    rw [List.foldl_cons, add_hist_eq]
    have hlen : ((l ++ [t]).rtake 20).length ≤ 20 := by
      simp [List.rtake, List.length_drop]
      omega
    rw [ih _ hlen, rtake_absorb]
    simp

/-! ## Claim C4 -/

/-- C4: for every sequence of appended utterances, the conversation
history never exceeds 20 entries; a single append keeps exactly the last
20 entries of `history ++ [text]` (oldest evicted first, most recent
kept in order), and folding any sequence of appends over the initial
empty history yields precisely the last 20 utterances in order. -/
theorem conversation_history_capped :
    (∀ (st : AIServiceState) (t : String),
       add_to_conversation_history st t =
         { conversation_history :=
             (st.conversation_history ++ [t]).drop
               ((st.conversation_history ++ [t]).length - 20) }) ∧
    (∀ ts : List String,
       (ts.foldl add_to_conversation_history
           { conversation_history := [] }).conversation_history
         = ts.drop (ts.length - 20) ∧
       (ts.foldl add_to_conversation_history
           { conversation_history := [] }).conversation_history.length ≤ 20) := by
  constructor
  · intro st t
    rw [add_hist_eq, rtake_eq_drop]
  · intro ts
    have h := foldl_hist ts [] (by simp)
    simp only [List.nil_append] at h
    rw [h, rtake_eq_drop]
    refine ⟨rfl, ?_⟩
    rw [List.length_drop]
    omega

/-! ## Claim C8 -/

/-- C8: `disconnect` is idempotent and total: it removes the id from the
active connection table, flips the session's `is_active` flag to false
when the session exists, is a no-op on each component when the id is
unknown there, and calling it twice yields the same state as calling it
once.  (Totality — "never throws" — is inherent: the embedding is a
total function, mirroring the membership-guarded Python code in which no
statement can raise.) -/
theorem disconnect_idempotent_total :
    ∀ (st : ManagerState) (sid : String),
      dLookup (disconnect st sid).active_connections sid = none ∧
      (∀ s : InterviewSession, dLookup st.sessions sid = some s →
         dLookup (disconnect st sid).sessions sid
           = some { s with is_active := false }) ∧
      (dLookup st.sessions sid = none → (disconnect st sid).sessions = st.sessions) ∧
      (dLookup st.active_connections sid = none →
         (disconnect st sid).active_connections = st.active_connections) ∧
      disconnect (disconnect st sid) sid = disconnect st sid := by
  intro st sid
  refine ⟨disconnect_lookup_active st sid, ?_, ?_, ?_, disconnect_idem st sid⟩
  · intro s h
    simp [disconnect, h, dLookup_dSetInactive_self st.sessions sid s h]
  · intro h
    simp [disconnect, h]
  · intro h
    simp [disconnect, h]

/-- Witness for C8 at a concrete one-session registry. -/
theorem disconnect_idempotent_total_witness :
    dLookup (disconnect ⟨[("a", 1)], [("a", ⟨"a", 0, true⟩)], ⟨[]⟩⟩ "a").sessions "a"
      = some ⟨"a", 0, false⟩ ∧
    disconnect (disconnect ⟨[("a", 1)], [("a", ⟨"a", 0, true⟩)], ⟨[]⟩⟩ "a") "a"
      = disconnect ⟨[("a", 1)], [("a", ⟨"a", 0, true⟩)], ⟨[]⟩⟩ "a" :=
  ⟨(disconnect_idempotent_total ⟨[("a", 1)], [("a", ⟨"a", 0, true⟩)], ⟨[]⟩⟩ "a").2.1
      ⟨"a", 0, true⟩ rfl,
   (disconnect_idempotent_total ⟨[("a", 1)], [("a", ⟨"a", 0, true⟩)], ⟨[]⟩⟩ "a").2.2.2.2⟩

/-! ## Claim C7 -/

/-- C7: `send_message` with an unknown session id is a no-op that never
delivers; with a known id a successful delivery leaves the state
untouched and delivers exactly the message; a delivery failure is
absorbed (the function returns normally), delivers nothing, and acts as
an implicit `disconnect`, leaving no stale entry in the active set. -/
theorem send_message_contract :
    ∀ (st : ManagerState) (ok : Bool) (sid : String) (m : Msg),
      (dLookup st.active_connections sid = none →
         send_message st ok sid m = (st, [])) ∧
      ((dLookup st.active_connections sid).isSome →
         (ok = true → send_message st ok sid m = (st, [(sid, m)])) ∧
         (ok = false →
            send_message st ok sid m = (disconnect st sid, []) ∧
            dLookup (send_message st ok sid m).1.active_connections sid = none)) := by
  intro st ok sid m
  constructor
  · intro h
    simp [send_message, h]
  · intro h
    constructor
    · intro hok
      subst hok
      simp [send_message, h]
    · intro hok
      subst hok
      simp [send_message, h, disconnect_lookup_active]

/-- Witness for C7: a failed delivery to the only live session removes
it from the active table; sending to an unknown id is a no-op. -/
theorem send_message_contract_witness :
    send_message ⟨[("a", 1)], [("a", ⟨"a", 0, true⟩)], ⟨[]⟩⟩ false "a" Msg.pong
      = (disconnect ⟨[("a", 1)], [("a", ⟨"a", 0, true⟩)], ⟨[]⟩⟩ "a", []) ∧
    dLookup (send_message ⟨[("a", 1)], [("a", ⟨"a", 0, true⟩)], ⟨[]⟩⟩ false "a"
        Msg.pong).1.active_connections "a" = none ∧
    send_message ⟨[("a", 1)], [("a", ⟨"a", 0, true⟩)], ⟨[]⟩⟩ true "zzz" Msg.pong
      = (⟨[("a", 1)], [("a", ⟨"a", 0, true⟩)], ⟨[]⟩⟩, []) :=
  ⟨(((send_message_contract ⟨[("a", 1)], [("a", ⟨"a", 0, true⟩)], ⟨[]⟩⟩ false "a"
        Msg.pong).2 rfl).2 rfl).1,
   (((send_message_contract ⟨[("a", 1)], [("a", ⟨"a", 0, true⟩)], ⟨[]⟩⟩ false "a"
        Msg.pong).2 rfl).2 rfl).2,
   (send_message_contract ⟨[("a", 1)], [("a", ⟨"a", 0, true⟩)], ⟨[]⟩⟩ true "zzz"
        Msg.pong).1 rfl⟩

/-! ## Claim C9 -/

lemma send_state_ok (st : ManagerState) (sid : String) (m : Msg) :
    (send_message st true sid m).1 = st := by
  by_cases h : (dLookup st.active_connections sid).isSome <;> simp [send_message, h]

/-- C9: a parsed inbound JSON object without a `"type"` field does not
raise: dispatch falls through to the unknown-type branch, the single
attempted message is the error `"Unknown message type: None"` (Python
renders the missing field as `None`), and when delivery succeeds the
manager state is completely unchanged — the connection stays open and
usable. -/
theorem handle_message_missing_type :
    ∀ (st : ManagerState) (sid : String) (dec : Except String (List Nat))
      (tr : Except String (Option String)) (gen : Except String (Option CoachingDict))
      (oks : Nat → Bool),
      (handle_message st sid { msgType := none, audioDecode := dec } tr gen oks).attempts
        = [Msg.error "Unknown message type: None"] ∧
      (oks 0 = true →
         (handle_message st sid { msgType := none, audioDecode := dec } tr gen oks).state
           = st) ∧
      (oks 0 = true → (dLookup st.active_connections sid).isSome →
         (handle_message st sid { msgType := none, audioDecode := dec } tr gen
             oks).delivered
           = [(sid, Msg.error "Unknown message type: None")]) := by
  intro st sid dec tr gen oks
  refine ⟨rfl, ?_, ?_⟩
  · intro h
    simp only [handle_message]
    rw [h]
    simp [send_state_ok]
  · intro h hs
    simp only [handle_message]
    rw [h]
    simp [send_message, hs, pyStr]

/-- Witness for C9 at a concrete registry and message. -/
theorem handle_message_missing_type_witness :
    (handle_message ⟨[("a", 1)], [("a", ⟨"a", 0, true⟩)], ⟨[]⟩⟩ "a"
        { msgType := none, audioDecode := Except.ok [] } (Except.ok none)
        (Except.ok none) (fun _ => true)).attempts
      = [Msg.error "Unknown message type: None"] ∧
    (handle_message ⟨[("a", 1)], [("a", ⟨"a", 0, true⟩)], ⟨[]⟩⟩ "a"
        { msgType := none, audioDecode := Except.ok [] } (Except.ok none)
        (Except.ok none) (fun _ => true)).state
      = ⟨[("a", 1)], [("a", ⟨"a", 0, true⟩)], ⟨[]⟩⟩ :=
  ⟨(handle_message_missing_type ⟨[("a", 1)], [("a", ⟨"a", 0, true⟩)], ⟨[]⟩⟩ "a"
      (Except.ok []) (Except.ok none) (Except.ok none) (fun _ => true)).1,
   (handle_message_missing_type ⟨[("a", 1)], [("a", ⟨"a", 0, true⟩)], ⟨[]⟩⟩ "a"
      (Except.ok []) (Except.ok none) (Except.ok none) (fun _ => true)).2.1 rfl⟩

/-! ## Claim C1 -/

/-- C1: every run of the audio-handling cycle attempts exactly one
terminal message (`no_speech` status, `ai_response`, or `error`) — never
zero and never more than one; an exception raised by the transcription
call or by the generation call is caught at the cycle's top level and
reported as the last attempted message, an error carrying the failure
description; and when deliveries succeed the registry (connection table
and session records) is left untouched, so the session stays usable for
the next message.  (The cycle itself is a total function: the single
`try`/`except` spanning the whole body means no exception escapes.) -/
theorem handle_audio_one_terminal :
    ∀ (st : ManagerState) (sid : String) (tr : Except String (Option String))
      (gen : Except String (Option CoachingDict)) (oks : Nat → Bool),
      (handle_audio_data st sid tr gen oks).attempts.countP
          (fun m => terminalOutcome m) = 1 ∧
      (∀ e, tr = Except.error e →
         (handle_audio_data st sid tr gen oks).attempts.getLast?
           = some (Msg.error ("Audio processing failed: " ++ e))) ∧
      (∀ t e, tr = Except.ok (some t) → gen = Except.error e →
         (handle_audio_data st sid tr gen oks).attempts.getLast?
           = some (Msg.error ("Audio processing failed: " ++ e))) ∧
      ((∀ k, oks k = true) →
         (handle_audio_data st sid tr gen oks).state.active_connections
             = st.active_connections ∧
         (handle_audio_data st sid tr gen oks).state.sessions = st.sessions) := by
  intro st sid tr gen oks
  refine ⟨?_, ?_, ?_, ?_⟩
  · cases tr with
    | error e => simp [handle_audio_data, terminalOutcome]
    | ok o =>
      cases o with
      | none => simp [handle_audio_data, terminalOutcome]
      | some t =>
        cases gen with
        | error e => simp [handle_audio_data, terminalOutcome]
        | ok g => cases g <;> simp [handle_audio_data, terminalOutcome]
  · intro e htr
    subst htr
    rfl
  · intro t e htr hgen
    subst htr
    subst hgen
    rfl
  · intro hok
    cases tr with
    | error e => simp [handle_audio_data, hok, send_state_ok]
    | ok o =>
      cases o with
      | none => simp [handle_audio_data, hok, send_state_ok]
      | some t =>
        cases gen with
        | error e => simp [handle_audio_data, hok, send_state_ok]
        | ok g => cases g <;> simp [handle_audio_data, hok, send_state_ok]

/-- Witness for C1: a raised transcription and a raised generation each
yield exactly one terminal message, the reported error; deliveries all
succeeding leave the registry unchanged. -/
theorem handle_audio_one_terminal_witness :
    (handle_audio_data ⟨[("s", 7)], [("s", ⟨"s", 0, true⟩)], ⟨[]⟩⟩ "s"
        (Except.error "boom") (Except.ok none) (fun _ => true)).attempts.countP
        (fun m => terminalOutcome m) = 1 ∧
    (handle_audio_data ⟨[("s", 7)], [("s", ⟨"s", 0, true⟩)], ⟨[]⟩⟩ "s"
        (Except.error "boom") (Except.ok none) (fun _ => true)).attempts.getLast?
      = some (Msg.error "Audio processing failed: boom") ∧
    (handle_audio_data ⟨[("s", 7)], [("s", ⟨"s", 0, true⟩)], ⟨[]⟩⟩ "s"
        (Except.ok (some "hello")) (Except.error "AttributeError")
        (fun _ => true)).attempts.getLast?
      = some (Msg.error "Audio processing failed: AttributeError") ∧
    (handle_audio_data ⟨[("s", 7)], [("s", ⟨"s", 0, true⟩)], ⟨[]⟩⟩ "s"
        (Except.error "boom") (Except.ok none) (fun _ => true)).state.sessions
      = [("s", ⟨"s", 0, true⟩)] :=
  ⟨(handle_audio_one_terminal ⟨[("s", 7)], [("s", ⟨"s", 0, true⟩)], ⟨[]⟩⟩ "s"
      (Except.error "boom") (Except.ok none) (fun _ => true)).1,
   (handle_audio_one_terminal ⟨[("s", 7)], [("s", ⟨"s", 0, true⟩)], ⟨[]⟩⟩ "s"
      (Except.error "boom") (Except.ok none) (fun _ => true)).2.1 "boom" rfl,
   (handle_audio_one_terminal ⟨[("s", 7)], [("s", ⟨"s", 0, true⟩)], ⟨[]⟩⟩ "s"
      (Except.ok (some "hello")) (Except.error "AttributeError")
      (fun _ => true)).2.2.1 "hello" "AttributeError" rfl rfl,
   ((handle_audio_one_terminal ⟨[("s", 7)], [("s", ⟨"s", 0, true⟩)], ⟨[]⟩⟩ "s"
      (Except.error "boom") (Except.ok none) (fun _ => true)).2.2.2
      (fun _ => rfl)).2⟩

/-! ## Claim C5 -/

lemma scanPatterns_match (intent : String) (ps : List String) (tl : String)
    (h : ps.any (fun p => reSearchStr p tl) = true) :
    scanPatterns intent ps tl = some intent := by
  induction ps with
  | nil => simp at h
  | cons p ps ih =>
    by_cases hp : reSearchStr p tl
    · simp [scanPatterns, hp]
    · simp [List.any_cons, hp] at h
      simp [scanPatterns, hp, ih (List.any_eq_true.mpr h)]

lemma scanPatterns_nomatch (intent : String) (ps : List String) (tl : String)
    (h : ps.any (fun p => reSearchStr p tl) = false) :
    scanPatterns intent ps tl = none := by
  induction ps with
  | nil => rfl
  | cons p ps ih =>
    simp [List.any_cons] at h
    simp [scanPatterns, h.1, ih (by simpa using h.2)]

lemma scanTable_first (table : List (String × List String)) (tl : String) :
    ∀ (k : Nat) (hk : k < table.length),
      (table.get ⟨k, hk⟩).2.any (fun p => reSearchStr p tl) = true →
      (∀ j (hj : j < k),
         (table.get ⟨j, Nat.lt_trans hj hk⟩).2.any (fun p => reSearchStr p tl)
           = false) →
      scanTable table tl = some (table.get ⟨k, hk⟩).1 := by
  induction table with
  | nil => intro k hk; exact absurd hk (Nat.not_lt_zero k)
  | cons e rest ih =>
    obtain ⟨intent, pats⟩ := e
    intro k hk hmatch hbefore
    cases k with
    | zero =>
      simp only [List.get] at hmatch ⊢
      simp [scanTable, scanPatterns_match intent pats tl hmatch]
    | succ k =>
      have h0 : pats.any (fun p => reSearchStr p tl) = false := by
        have := hbefore 0 (Nat.succ_pos k)
        simpa using this
      have hk' : k < rest.length := Nat.lt_of_succ_lt_succ hk
      have hmatch' : (rest.get ⟨k, hk'⟩).2.any (fun p => reSearchStr p tl) = true := by
        simpa using hmatch
      have hbefore' : ∀ j (hj : j < k),
          (rest.get ⟨j, Nat.lt_trans hj hk'⟩).2.any (fun p => reSearchStr p tl)
            = false := by
        intro j hj
        have := hbefore (j + 1) (Nat.succ_lt_succ hj)
        simpa using this
      simp only [List.get]
      simp [scanTable, scanPatterns_nomatch intent pats tl h0,
        ih k hk' hmatch' hbefore']

lemma scanTable_nomatch (table : List (String × List String)) (tl : String)
    (h : ∀ e ∈ table, e.2.any (fun p => reSearchStr p tl) = false) :
    scanTable table tl = none := by
  induction table with
  | nil => rfl
  | cons e rest ih =>
    obtain ⟨intent, pats⟩ := e
    have h0 : pats.any (fun p => reSearchStr p tl) = false := h (intent, pats) (by simp)
    have hrest : ∀ e ∈ rest, e.2.any (fun p => reSearchStr p tl) = false :=
      fun e he => h e (by simp [he])
    simp [scanTable, scanPatterns_nomatch intent pats tl h0, ih hrest]

/-- C5: `detect_intent` returns `"unknown"` on null or empty input
without raising; on non-empty input it lowercases the text and tests the
table strictly in order — if the entry at position `k` has a matching
pattern and no earlier entry does, its label is returned; and when no
table pattern matches, the result is `"general_question"` exactly when
the lowercased text contains one of the interrogative markers, and
`"unknown"` otherwise. -/
theorem detect_intent_table_order :
    detect_intent none = "unknown" ∧
    detect_intent (some "") = "unknown" ∧
    (∀ (s : String) (k : Nat) (hk : k < question_patterns.length),
       s ≠ "" →
       (question_patterns.get ⟨k, hk⟩).2.any
           (fun p => reSearchStr p (lowerStr s)) = true →
       (∀ j (hj : j < k),
          (question_patterns.get ⟨j, Nat.lt_trans hj hk⟩).2.any
              (fun p => reSearchStr p (lowerStr s)) = false) →
       detect_intent (some s) = (question_patterns.get ⟨k, hk⟩).1) ∧
    (∀ s : String, s ≠ "" →
       (∀ e ∈ question_patterns,
          e.2.any (fun p => reSearchStr p (lowerStr s)) = false) →
       detect_intent (some s)
         = (if hasInterrogative (lowerStr s) then "general_question"
            else "unknown")) := by
  refine ⟨rfl, rfl, ?_, ?_⟩
  · intro s k hk hs hmatch hbefore
    simp [detect_intent, hs,
      scanTable_first question_patterns (lowerStr s) k hk hmatch hbefore]
  · intro s hs hnone
    simp [detect_intent, hs, scanTable_nomatch question_patterns (lowerStr s) hnone]

/-- Witness for C5: the first table entry (`behavioral`) wins on a text
matching one of its patterns; a markerless non-matching text falls
through to `"unknown"`. -/
theorem detect_intent_table_order_witness :
    detect_intent (some "Tell me about a time you failed") = "behavioral" ∧
    detect_intent (some "nice weather today") = "unknown" :=
  ⟨detect_intent_table_order.2.2.1 "Tell me about a time you failed" 0 (by decide)
     (by decide) (by decide) (fun j hj => absurd hj (Nat.not_lt_zero j)),
   (detect_intent_table_order.2.2.2 "nice weather today" (by decide)
     (by decide)).trans (by decide)⟩

/-! ## Claim C10 -/

/-- C10: the interrogative fallback is a plain substring test (Python
`word in text_lower`): every non-empty input that matches no table
pattern but contains one of the markers `what`/`how`/`why`/`when`/
`where`/`who` anywhere in its lowercased text — also inside a longer
word — is classified `"general_question"`, never `"unknown"`. -/
theorem interrogative_fallback_substring :
    ∀ s : String, s ≠ "" →
      scanTable question_patterns (lowerStr s) = none →
      (∃ w, w ∈ interrogatives ∧ containsSub w.data (lowerStr s).data = true) →
      detect_intent (some s) = "general_question" := by
  intro s hs hnone hw
  have hhi : hasInterrogative (lowerStr s) = true := by
    obtain ⟨w, hmem, hsub⟩ := hw
    simp only [hasInterrogative, List.any_eq_true]
    exact ⟨w, hmem, hsub⟩
  simp [detect_intent, hs, hnone, hhi]

/-- Witness for C10: `"somewhat"` contains `"what"` inside a longer word,
matches no table pattern, and is classified `"general_question"`;
likewise `"nowhere"` via `"where"`. -/
theorem interrogative_fallback_substring_witness :
    detect_intent (some "somewhat") = "general_question" ∧
    detect_intent (some "nowhere") = "general_question" :=
  ⟨interrogative_fallback_substring "somewhat" (by decide) (by decide)
     ⟨"what", by decide, by decide⟩,
   interrogative_fallback_substring "nowhere" (by decide) (by decide)
     ⟨"where", by decide, by decide⟩⟩

/-! ## Claim C2 -/

lemma dLookup_mem {α : Type} (d : List (String × α)) (k : String) (r : α)
    (h : dLookup d k = some r) : ∃ p, p ∈ d ∧ p.2 = r := by
  induction d with
  | nil => simp [dLookup] at h
  | cons p d ih =>
    obtain ⟨k0, v⟩ := p
    by_cases h0 : k0 = k
    · subst h0
      simp [dLookup] at h
      exact ⟨(k0, v), by simp, by simp [h]⟩
    · simp [dLookup, h0] at h
      obtain ⟨p, hp, hpr⟩ := ih h
      exact ⟨p, by simp [hp], hpr⟩

lemma mock_vals_ok :
    ∀ p ∈ mock_responses, p.2.bullets ≠ [] ∧ p.2.follow_up ≠ "" := by decide

lemma mock_default_ok : mock_default.bullets ≠ [] ∧ mock_default.follow_up ≠ "" := by
  decide

lemma mock_suggestions_ok (text intent : String) (ctx : ContextBundle) :
    (mock_suggestions text intent ctx).bullets ≠ [] ∧
    (mock_suggestions text intent ctx).follow_up ≠ "" := by
  unfold mock_suggestions
  have hbase :
      (match dLookup mock_responses intent with
       | some r => r
       | none => mock_default).bullets ≠ [] ∧
      (match dLookup mock_responses intent with
       | some r => r
       | none => mock_default).follow_up ≠ "" := by
    cases heq : dLookup mock_responses intent with
    | none => simpa using mock_default_ok
    | some r =>
      obtain ⟨p, hp, hpr⟩ := dLookup_mem _ _ _ heq
      simpa using hpr ▸ mock_vals_ok p hp
  by_cases hms : ctx.matching_skills = []
  · simpa [hms] using hbase
  · simpa [hms] using hbase.2

lemma parse_ok (c : String) (d : CoachingDict) (h : parse_text_response c = Except.ok d) :
    d.bullets ≠ [] ∧ d.follow_up ≠ "" := by
  unfold parse_text_response at h
  cases hp : parseLines [] [] false (splitLines c.data) with
  | error e => rw [hp] at h; simp at h
  | ok bf =>
    obtain ⟨bullets, fu⟩ := bf
    rw [hp] at h
    simp only [Except.ok.injEq] at h
    subst h
    constructor
    · by_cases hb : bullets = []
      · simp [hb]
      · cases bullets with
        | nil => exact absurd rfl hb
        | cons b bs => simp
    · by_cases hf : fu = []
      · simp only [hf, if_pos rfl]
        decide
      · simp only [hf, if_neg hf]
        simpa [String.ext_iff] using hf

/-- C2 counterexample: the generation step used by the session pipeline,
`AIService.generate_coaching_response`, returns `None` — not a fallback
coaching result — when the generation call raises (lines 94–96 of
`ai_service.py`), contradicting "it never returns nothing". -/
theorem generate_coaching_response_none_on_failure :
    generate_coaching_response (GenOutcome.apiError "connection error") = none := rfl

/-- C2 (amended): `LLMService.generate_suggestions` always returns a
coaching dict, and on every path except an Ollama reply that already
parses as JSON with both keys — i.e. on every failure or
malformed-output path, including all-backends-down — the returned dict
has a non-empty bullets list and a non-empty follow-up string.
(`AIService.generate_coaching_response`, by contrast, returns `None` on
its failure path; see the counterexample.) -/
theorem generate_suggestions_fallback_nonempty :
    ∀ (use_local setup_ok : Bool) (resp : OllamaResp) (text intent : String)
      (ctx : ContextBundle),
      (∀ d, resp ≠ OllamaResp.jsonBoth d) →
      (generate_suggestions use_local setup_ok resp text intent ctx).bullets ≠ [] ∧
      (generate_suggestions use_local setup_ok resp text intent ctx).follow_up ≠ "" := by
  intro ul so resp text intent ctx hresp
  unfold generate_suggestions ensure_model_ready
  by_cases hl : (ul && so) = true
  · simp only [hl, if_true]
    cases resp with
    | exn e => simpa [generate_with_ollama] using mock_suggestions_ok text intent ctx
    | badStatus n =>
      simpa [generate_with_ollama] using mock_suggestions_ok text intent ctx
    | jsonBoth d => exact absurd rfl (hresp d)
    | textBody c =>
      cases hp : parse_text_response c with
      | error e =>
        simpa [generate_with_ollama, hp] using mock_suggestions_ok text intent ctx
      | ok d =>
        simpa [generate_with_ollama, hp] using parse_ok c d hp
  · simp only [Bool.not_eq_true] at hl
    simpa [hl] using mock_suggestions_ok text intent ctx

/-- Witness for C2's amended theorem: with the local backend configured
but the Ollama call raising, the result still carries non-empty bullets
and follow-up. -/
theorem generate_suggestions_fallback_nonempty_witness :
    (generate_suggestions true true (OllamaResp.exn "connection refused")
        "Tell me about yourself" "experience" ⟨[], [], [], []⟩).bullets ≠ [] ∧
    (generate_suggestions true true (OllamaResp.exn "connection refused")
        "Tell me about yourself" "experience" ⟨[], [], [], []⟩).follow_up ≠ "" :=
  generate_suggestions_fallback_nonempty true true (OllamaResp.exn "connection refused")
    "Tell me about yourself" "experience" ⟨[], [], [], []⟩
    (fun _ h => OllamaResp.noConfusion h)

/-! ## Claim C6 -/

/-- C6 (amended): below or at the 32000-byte threshold the buffer only
grows by the appended chunk (nothing is handed off, nothing sent); once
the accumulated length exceeds the threshold, the entire accumulated
content — not just the threshold-sized slice — is handed to
`transcribe_segment` as one segment, and the buffer is empty afterwards
provided the transcription call returns normally; if the call raises,
`buffer.clear()` is skipped and the buffer retains the whole accumulated
content. -/
theorem audio_buffer_threshold_behavior :
    ∀ (buffer frame : List Nat) (tr : Except String String) (ul so : Bool)
      (resp : OllamaResp) (ctx : ContextBundle),
      (¬ (buffer ++ frame).length > 32000 →
         audio_socket_step buffer frame tr ul so resp ctx
           = (buffer ++ frame, none, none)) ∧
      ((buffer ++ frame).length > 32000 →
         (audio_socket_step buffer frame tr ul so resp ctx).2.1
             = some (buffer ++ frame) ∧
         (∀ t, tr = Except.ok t →
            (audio_socket_step buffer frame tr ul so resp ctx).1 = []) ∧
         (∀ e, tr = Except.error e →
            (audio_socket_step buffer frame tr ul so resp ctx).1
              = buffer ++ frame)) := by
  intro buffer frame tr ul so resp ctx
  constructor
  · intro h
    simp only [audio_socket_step]
    rw [if_neg h]
  · intro h
    refine ⟨?_, ?_, ?_⟩
    · cases tr with
      | error e =>
        simp only [audio_socket_step]
        rw [if_pos h]
      | ok t =>
        simp only [audio_socket_step]
        rw [if_pos h]
        split <;> rfl
    · intro t htr
      subst htr
      simp only [audio_socket_step]
      rw [if_pos h]
      split <;> rfl
    · intro e htr
      subst htr
      simp only [audio_socket_step]
      rw [if_pos h]

/-- C6 counterexample: with 32001 accumulated bytes the segment is handed
off, but if `transcribe_segment` raises (as it does whenever the
synchronous wrapper is invoked from the already-running server event
loop), the `except` branch is taken before `buffer.clear()` runs, so the
buffer is NOT empty afterwards — it still holds all 32001 bytes. -/
theorem audio_buffer_retained_on_error :
    (audio_socket_step (List.replicate 32000 0) [0]
        (Except.error "this event loop is already running") true true
        (OllamaResp.exn "") ⟨[], [], [], []⟩).1 ≠ [] ∧
    (audio_socket_step (List.replicate 32000 0) [0]
        (Except.error "this event loop is already running") true true
        (OllamaResp.exn "") ⟨[], [], [], []⟩).2.1
      = some (List.replicate 32000 0 ++ [0]) := by
  have hlen : ((List.replicate 32000 (0 : Nat)) ++ [0]).length > 32000 := by
    rw [List.length_append, List.length_replicate]
    decide
  have hl2 : ((List.replicate 32000 (0 : Nat)) ++ [0]).length = 32001 := by
    rw [List.length_append, List.length_replicate]
    decide
  constructor
  · simp only [audio_socket_step]
    rw [if_pos hlen]
    intro hc
    have hc' : List.replicate 32000 (0 : Nat) ++ [0] = [] := hc
    rw [hc'] at hl2
    simp at hl2
  · simp only [audio_socket_step]
    rw [if_pos hlen]

/-- Witness for C6: a short frame only grows the buffer; a successful
transcription over the threshold empties it and hands off everything. -/
theorem audio_buffer_threshold_behavior_witness :
    audio_socket_step [] [0] (Except.ok "hi") true true (OllamaResp.exn "")
        ⟨[], [], [], []⟩ = ([0], none, none) ∧
    (audio_socket_step (List.replicate 32000 0) [0] (Except.ok "hi") true true
        (OllamaResp.exn "") ⟨[], [], [], []⟩).1 = [] ∧
    (audio_socket_step (List.replicate 32000 0) [0] (Except.ok "hi") true true
        (OllamaResp.exn "") ⟨[], [], [], []⟩).2.1
      = some (List.replicate 32000 0 ++ [0]) :=
  ⟨(audio_buffer_threshold_behavior [] [0] (Except.ok "hi") true true
      (OllamaResp.exn "") ⟨[], [], [], []⟩).1 (by decide),
   ((audio_buffer_threshold_behavior (List.replicate 32000 0) [0] (Except.ok "hi")
      true true (OllamaResp.exn "") ⟨[], [], [], []⟩).2
      (by rw [List.length_append, List.length_replicate]; decide)).2.1 "hi" rfl,
   ((audio_buffer_threshold_behavior (List.replicate 32000 0) [0] (Except.ok "hi")
      true true (OllamaResp.exn "") ⟨[], [], [], []⟩).2
      (by rw [List.length_append, List.length_replicate]; decide)).1⟩

/-! ## Claim C3 -/

lemma disconnect_other_active (st : ManagerState) (a b : String) (h : b ≠ a) :
    dLookup (disconnect st a).active_connections b = dLookup st.active_connections b := by
  unfold disconnect
  cases heq : dLookup st.active_connections a with
  | none => simp [heq]
  | some c => simp [heq, dLookup_dErase_ne _ _ _ h]

lemma disconnect_other_sessions (st : ManagerState) (a b : String) (h : b ≠ a) :
    dLookup (disconnect st a).sessions b = dLookup st.sessions b := by
  unfold disconnect
  cases heq : dLookup st.sessions a with
  | none => simp [heq]
  | some s => simp [heq, dLookup_dSetInactive_ne _ _ _ h]

lemma send_other_active (st : ManagerState) (ok : Bool) (a : String) (m : Msg)
    (b : String) (h : b ≠ a) :
    dLookup (send_message st ok a m).1.active_connections b
      = dLookup st.active_connections b := by
  unfold send_message
  by_cases hs : (dLookup st.active_connections a).isSome
  · cases ok <;> simp [hs, disconnect_other_active st a b h]
  · simp [hs]

lemma send_other_sessions (st : ManagerState) (ok : Bool) (a : String) (m : Msg)
    (b : String) (h : b ≠ a) :
    dLookup (send_message st ok a m).1.sessions b = dLookup st.sessions b := by
  unfold send_message
  by_cases hs : (dLookup st.active_connections a).isSome
  · cases ok <;> simp [hs, disconnect_other_sessions st a b h]
  · simp [hs]

lemma send_ai (st : ManagerState) (ok : Bool) (a : String) (m : Msg) :
    (send_message st ok a m).1.ai_service = st.ai_service := by
  unfold send_message disconnect
  by_cases hs : (dLookup st.active_connections a).isSome
  · cases ok <;> simp [hs]
  · simp [hs]

lemma withAi_active (st : ManagerState) (ai : AIServiceState) :
    ({ st with ai_service := ai }).active_connections = st.active_connections := rfl

lemma withAi_sessions (st : ManagerState) (ai : AIServiceState) :
    ({ st with ai_service := ai }).sessions = st.sessions := rfl

lemma withAi_ai (st : ManagerState) (ai : AIServiceState) :
    ({ st with ai_service := ai }).ai_service = ai := rfl

lemma handle_audio_other (st : ManagerState) (a b : String) (h : b ≠ a)
    (tr : Except String (Option String)) (gen : Except String (Option CoachingDict))
    (oks : Nat → Bool) :
    dLookup (handle_audio_data st a tr gen oks).state.active_connections b
      = dLookup st.active_connections b ∧
    dLookup (handle_audio_data st a tr gen oks).state.sessions b
      = dLookup st.sessions b := by
  cases tr with
  | error e =>
    constructor
    · simp only [handle_audio_data]
      rw [send_other_active _ _ _ _ _ h, send_other_active _ _ _ _ _ h]
    · simp only [handle_audio_data]
      rw [send_other_sessions _ _ _ _ _ h, send_other_sessions _ _ _ _ _ h]
  | ok o =>
    cases o with
    | none =>
      constructor
      · simp only [handle_audio_data]
        rw [send_other_active _ _ _ _ _ h, send_other_active _ _ _ _ _ h]
      · simp only [handle_audio_data]
        rw [send_other_sessions _ _ _ _ _ h, send_other_sessions _ _ _ _ _ h]
    | some t =>
      cases gen with
      | error e =>
        constructor
        · simp only [handle_audio_data]
          rw [send_other_active _ _ _ _ _ h, send_other_active _ _ _ _ _ h,
            withAi_active, send_other_active _ _ _ _ _ h,
            send_other_active _ _ _ _ _ h]
        · simp only [handle_audio_data]
          rw [send_other_sessions _ _ _ _ _ h, send_other_sessions _ _ _ _ _ h,
            withAi_sessions, send_other_sessions _ _ _ _ _ h,
            send_other_sessions _ _ _ _ _ h]
      | ok g =>
        cases g with
        | none =>
          constructor
          · simp only [handle_audio_data]
            rw [send_other_active _ _ _ _ _ h, send_other_active _ _ _ _ _ h,
              withAi_active, send_other_active _ _ _ _ _ h,
              send_other_active _ _ _ _ _ h]
          · simp only [handle_audio_data]
            rw [send_other_sessions _ _ _ _ _ h, send_other_sessions _ _ _ _ _ h,
              withAi_sessions, send_other_sessions _ _ _ _ _ h,
              send_other_sessions _ _ _ _ _ h]
        | some sug =>
          constructor
          · simp only [handle_audio_data]
            rw [send_other_active _ _ _ _ _ h, send_other_active _ _ _ _ _ h,
              withAi_active, send_other_active _ _ _ _ _ h,
              send_other_active _ _ _ _ _ h]
          · simp only [handle_audio_data]
            rw [send_other_sessions _ _ _ _ _ h, send_other_sessions _ _ _ _ _ h,
              withAi_sessions, send_other_sessions _ _ _ _ _ h,
              send_other_sessions _ _ _ _ _ h]

lemma handle_message_other (st : ManagerState) (a b : String) (m : Inbound)
    (tr : Except String (Option String)) (gen : Except String (Option CoachingDict))
    (oks : Nat → Bool) (h : b ≠ a) :
    dLookup (handle_message st a m tr gen oks).state.active_connections b
      = dLookup st.active_connections b ∧
    dLookup (handle_message st a m tr gen oks).state.sessions b
      = dLookup st.sessions b := by
  obtain ⟨mt, dec⟩ := m
  by_cases h1 : mt = some "audio"
  · cases dec with
    | ok bytes =>
      simpa [handle_message, h1] using handle_audio_other st a b h tr gen oks
    | error e =>
      constructor
      · simpa [handle_message, h1] using
          send_other_active st (oks 0) a (Msg.error ("Invalid audio data: " ++ e)) b h
      · simpa [handle_message, h1] using
          send_other_sessions st (oks 0) a (Msg.error ("Invalid audio data: " ++ e)) b h
  · by_cases h2 : mt = some "ping"
    · constructor
      · simpa [handle_message, h1, h2] using
          send_other_active st (oks 0) a Msg.pong b h
      · simpa [handle_message, h1, h2] using
          send_other_sessions st (oks 0) a Msg.pong b h
    · by_cases h3 : mt = some "clear_history"
      · constructor
        · simpa [handle_message, h1, h2, h3] using
            send_other_active
              { st with ai_service := clear_conversation_history st.ai_service }
              (oks 0) a (Msg.status "history_cleared" "Conversation history cleared") b h
        · simpa [handle_message, h1, h2, h3] using
            send_other_sessions
              { st with ai_service := clear_conversation_history st.ai_service }
              (oks 0) a (Msg.status "history_cleared" "Conversation history cleared") b h
      · constructor
        · simpa [handle_message, h1, h2, h3] using
            send_other_active st (oks 0) a
              (Msg.error ("Unknown message type: " ++ pyStr mt)) b h
        · simpa [handle_message, h1, h2, h3] using
            send_other_sessions st (oks 0) a
              (Msg.error ("Unknown message type: " ++ pyStr mt)) b h

lemma handle_audio_ai (st : ManagerState) (a t : String)
    (gen : Except String (Option CoachingDict)) (oks : Nat → Bool) :
    (handle_audio_data st a (Except.ok (some t)) gen oks).state.ai_service
      = add_to_conversation_history st.ai_service t := by
  cases gen with
  | error e =>
    simp only [handle_audio_data]
    rw [send_ai, send_ai, withAi_ai, send_ai, send_ai]
  | ok g =>
    cases g with
    | none =>
      simp only [handle_audio_data]
      rw [send_ai, send_ai, withAi_ai, send_ai, send_ai]
    | some sug =>
      simp only [handle_audio_data]
      rw [send_ai, send_ai, withAi_ai, send_ai, send_ai]

/-- C3 counterexample: with two live sessions `A` and `B` and an empty
history, handling an audio message for `A` (transcription `"hello"`)
changes the conversation state that `B` observes — the history consulted
by `B`'s next cycle is `["hello", "hi"]`, containing `A`'s utterance —
because the one `AIService` created in `ConnectionManager.__init__` is
shared by every session.  This falsifies "no mutable state other than
the registry's connection table is shared across sessions". -/
theorem cross_session_history_shared :
    (handle_message
        ⟨[("A", 0), ("B", 1)], [("A", ⟨"A", 0, true⟩), ("B", ⟨"B", 0, true⟩)], ⟨[]⟩⟩
        "A" ⟨some "audio", Except.ok [0]⟩ (Except.ok (some "hello"))
        (Except.ok none) (fun _ => true)).state.ai_service.conversation_history
      = ["hello"] ∧
    (handle_audio_data
        (handle_message
            ⟨[("A", 0), ("B", 1)],
             [("A", ⟨"A", 0, true⟩), ("B", ⟨"B", 0, true⟩)], ⟨[]⟩⟩
            "A" ⟨some "audio", Except.ok [0]⟩ (Except.ok (some "hello"))
            (Except.ok none) (fun _ => true)).state
        "B" (Except.ok (some "hi")) (Except.ok none) (fun _ => true)).historyUsed
      = some ["hello", "hi"] ∧
    (handle_audio_data
        ⟨[("A", 0), ("B", 1)], [("A", ⟨"A", 0, true⟩), ("B", ⟨"B", 0, true⟩)], ⟨[]⟩⟩
        "B" (Except.ok (some "hi")) (Except.ok none) (fun _ => true)).historyUsed
      = some ["hi"] := by
  refine ⟨rfl, rfl, rfl⟩

/-- C3 (amended): handling a message for session `A` leaves session
`B`'s registry entries — its channel in the connection table and its
`InterviewSession` record — unchanged for every `B ≠ A`; but the
conversation history is not per-session: a transcription handled for any
session id updates the single shared `AIService` history (the update
does not depend on the session id), and that same history is what every
other session's cycle reads. -/
theorem handle_message_registry_isolation :
    ∀ (st : ManagerState) (a b : String) (m : Inbound)
      (tr : Except String (Option String)) (gen : Except String (Option CoachingDict))
      (oks : Nat → Bool),
      (b ≠ a →
         dLookup (handle_message st a m tr gen oks).state.active_connections b
           = dLookup st.active_connections b ∧
         dLookup (handle_message st a m tr gen oks).state.sessions b
           = dLookup st.sessions b) ∧
      (∀ t, tr = Except.ok (some t) →
         (handle_audio_data st a tr gen oks).state.ai_service
           = add_to_conversation_history st.ai_service t) := by
  intro st a b m tr gen oks
  constructor
  · intro h
    exact handle_message_other st a b m tr gen oks h
  · intro t htr
    subst htr
    exact handle_audio_ai st a t gen oks

/-- Witness for C3's amended theorem at a concrete two-session registry. -/
theorem handle_message_registry_isolation_witness :
    dLookup (handle_message
        ⟨[("A", 0), ("B", 1)], [("A", ⟨"A", 0, true⟩), ("B", ⟨"B", 0, true⟩)], ⟨[]⟩⟩
        "A" ⟨some "audio", Except.ok [0]⟩ (Except.ok (some "hello"))
        (Except.ok none) (fun _ => true)).state.sessions "B"
      = dLookup [("A", (⟨"A", 0, true⟩ : InterviewSession)),
          ("B", ⟨"B", 0, true⟩)] "B" ∧
    (handle_audio_data
        ⟨[("A", 0), ("B", 1)], [("A", ⟨"A", 0, true⟩), ("B", ⟨"B", 0, true⟩)], ⟨[]⟩⟩
        "A" (Except.ok (some "hello")) (Except.ok none)
        (fun _ => true)).state.ai_service
      = add_to_conversation_history ⟨[]⟩ "hello" :=
  ⟨((handle_message_registry_isolation
      ⟨[("A", 0), ("B", 1)], [("A", ⟨"A", 0, true⟩), ("B", ⟨"B", 0, true⟩)], ⟨[]⟩⟩
      "A" "B" ⟨some "audio", Except.ok [0]⟩ (Except.ok (some "hello"))
      (Except.ok none) (fun _ => true)).1 (by decide)).2,
   (handle_message_registry_isolation
      ⟨[("A", 0), ("B", 1)], [("A", ⟨"A", 0, true⟩), ("B", ⟨"B", 0, true⟩)], ⟨[]⟩⟩
      "A" "B" ⟨some "audio", Except.ok [0]⟩ (Except.ok (some "hello"))
      (Except.ok none) (fun _ => true)).2 "hello" rfl⟩

end InterviewBuddy
